import Mathlib

/-!
Shallow embedding of `src/server.js` (navidrome-registration): a small
Express gateway exposing `POST /api/register` and `GET /api/health`.
JSON scalar request-field values are modelled by `JsValue`; the handler
pipeline (rate limiter, validation chain, Subsonic auth generation,
outbound `rest/createUser` call, response mapping, catch block) is
translated function by function.
-/

namespace NavReg

/-- JSON scalar values as they arrive in `req.body` fields (objects and
arrays are out of scope of the claims). `undef` models an absent field. -/
inductive JsValue where
  | undef
  | null
  | str (s : String)
  | num (n : Int)
  | jsbool (b : Bool)
  deriving DecidableEq, Repr

/-- JavaScript truthiness of a `JsValue` (NaN is not modelled). -/
def truthy : JsValue → Bool
  | .undef => false
  | .null => false
  | .str s => decide (s ≠ "")
  | .num n => decide (n ≠ 0)
  | .jsbool b => b

/-- JavaScript `String(v)` coercion, as applied by `RegExp.test` to a
non-string argument. -/
def jsToString : JsValue → String
  | .undef => "undefined"
  | .null => "null"
  | .str s => s
  | .num n => toString n
  | .jsbool b => if b then "true" else "false"

/-- `v.length < 8` in JavaScript (line 62): strings report their length;
the scalar non-string values have no `length` property, so the comparison
is `undefined < 8`, which is `false`. -/
def jsLengthLt8 : JsValue → Bool
  | .str s => decide (s.length < 8)
  | _ => false

/-- Character class `[a-zA-Z0-9_-]` of the username regex (line 54). -/
def usernameCharOk (c : Char) : Bool :=
  (decide ('a' ≤ c) && decide (c ≤ 'z')) ||
  (decide ('A' ≤ c) && decide (c ≤ 'Z')) ||
  (decide ('0' ≤ c) && decide (c ≤ '9')) ||
  decide (c = '_') || decide (c = '-')

/-- `/^[a-zA-Z0-9_-]{3,20}$/.test s` (line 54): the whole string is 3 to 20
characters drawn from the class. -/
def regexUsernameTest (s : String) : Bool :=
  decide (3 ≤ s.length) && decide (s.length ≤ 20) && s.data.all usernameCharOk

/-- The whitespace class `\s` of the email regex, restricted to the ASCII
whitespace characters. -/
def jsWs (c : Char) : Bool :=
  decide (c = ' ') || decide (c = '\t') || decide (c = '\n') ||
  decide (c = '\r') || decide (c = '\x0b') || decide (c = '\x0c')

/-- Character class `[^\s@]` of the email regex (line 70). -/
def emailCharOk (c : Char) : Bool := !jsWs c && decide (c ≠ '@')

/-- The longest prefix before the first occurrence of `a`, together with the
suffix after it; `none` when `a` does not occur. -/
def splitFirst (a : Char) : List Char → Option (List Char × List Char)
  | [] => none
  | c :: cs =>
    if c = a then some ([], cs)
    else
      match splitFirst a cs with
      | none => none
      | some (l, r) => some (c :: l, r)

/-- Whether some `'.'` occurs at a position that is neither first nor last. -/
def hasInnerDot : List Char → Bool
  | [] => false
  | [_] => false
  | _ :: c :: rest => (decide (c = '.') && decide (rest ≠ [])) || hasInnerDot (c :: rest)

/-- `/^[^\s@]+@[^\s@]+\.[^\s@]+$/.test` (line 70), decided directly: the
string decomposes as a nonempty `[^\s@]` run, a literal `'@'`, and a domain
that is a `[^\s@]` run containing a `'.'` that is neither its first nor its
last character. -/
def emailRegexTest (s : String) : Bool :=
  match splitFirst '@' s.data with
  | none => false
  | some (l, d) =>
    decide (l ≠ []) && l.all emailCharOk && decide (d ≠ []) &&
    d.all emailCharOk && hasInnerDot d

/-- The four validation error messages of lines 46-76, in rule order. -/
def msgMissing : String := "Username, password, and email are required"

def msgUsername : String := "Username must be 3-20 characters (letters, numbers, underscore, hyphen only)"

def msgPassword : String := "Password must be at least 8 characters"

def msgEmail : String := "Invalid email format"

/-- The validation chain of lines 46-76: first failing rule wins, returning
the HTTP status (always 400) and message of that rule; `none` when all four
rules pass. -/
def validationError (username password email : JsValue) : Option (Nat × String) :=
  if !truthy username || !truthy password || !truthy email then
    some (400, msgMissing)
  else if !regexUsernameTest (jsToString username) then
    some (400, msgUsername)
  else if jsLengthLt8 password then
    some (400, msgPassword)
  else if !emailRegexTest (jsToString email) then
    some (400, msgEmail)
  else
    none

/-- The JSON body sent back by the gateway on `/api/register`. Absent JSON
fields are `none`; `username` is echoed as the submitted `JsValue`. -/
structure RespBody where
  success : Bool
  message : Option String := none
  error : Option String := none
  username : Option JsValue := none
  deriving DecidableEq, Repr

/-- An HTTP response of the register endpoint: status code and JSON body. -/
structure HttpResp where
  status : Nat
  body : RespBody
  deriving DecidableEq, Repr

/-- A 400-class validation or domain error body. -/
def errResp (st : Nat) (msg : String) : HttpResp :=
  ⟨st, { success := false, error := some msg }⟩

/-- The upstream `subsonic-response.error` object; its `message` field may
be absent (`none`). -/
structure SubsonicError where
  message : Option String
  deriving DecidableEq, Repr

/-- The upstream `subsonic-response` object. -/
structure SubsonicResp where
  status : String
  error : Option SubsonicError
  deriving DecidableEq, Repr

/-- A parsed upstream response body; the `subsonic-response` key may be
absent (`none`), as with a malformed or non-JSON body. -/
structure RespData where
  subsonicResponse : Option SubsonicResp
  deriving DecidableEq, Repr

/-- Result of the awaited `axios.get` call: `success` carries the parsed
2xx body; `failure` models a thrown transport error (network error or
non-2xx), whose `error.response.data` payload may or may not be present. -/
inductive AxiosOutcome where
  | success (data : RespData)
  | failure (respData : Option RespData)
  deriving DecidableEq, Repr

/-- JavaScript `m || d` where `m` is a string field that may be absent:
falls back to `d` when `m` is `undefined` or the empty string (both falsy). -/
def jsOrDefault (m : Option String) (d : String) : String :=
  match m with
  | some s => if s = "" then d else s
  | none => d

/-- The catch block of lines 124-140. Its input is the optional
`error.response.data` payload of the caught error (a non-Axios error, such
as a TypeError thrown inside the try block, carries none). The optional
chain `error.response?.data?.['subsonic-response']?.error` picks out an
embedded upstream error object; if present, 400 with its message (default
"User creation failed"), otherwise 500 with a constant body. -/
def catchBlock (respData : Option RespData) : HttpResp :=
  match respData with
  | some rd =>
    match rd.subsonicResponse with
    | some sr =>
      match sr.error with
      | some e => errResp 400 (jsOrDefault e.message "User creation failed")
      | none => ⟨500, { success := false, error := some "Internal server error" }⟩
    | none => ⟨500, { success := false, error := some "Internal server error" }⟩
  | none => ⟨500, { success := false, error := some "Internal server error" }⟩

/-- The optional chain `error.response?.data?.['subsonic-response']?.error`. -/
def embeddedError (respData : Option RespData) : Option SubsonicError :=
  (respData.bind (fun rd => rd.subsonicResponse)).bind (fun sr => sr.error)

/-- Lines 107-140 after a successful validation: interpret the awaited
call. Reading `.status` when the `subsonic-response` key is absent, or
`.message` of `error` when the non-ok reply carries no error object, throws
a TypeError that lands in the catch block with no `error.response` payload. -/
def upstreamReply (username : JsValue) (outcome : AxiosOutcome) : HttpResp :=
  match outcome with
  | .success data =>
    match data.subsonicResponse with
    | none => catchBlock none
    | some sr =>
      if sr.status = "ok" then
        ⟨200, { success := true, message := some "Account created successfully",
                username := some username }⟩
      else
        match sr.error with
        | none => catchBlock none
        | some e => errResp 400 (jsOrDefault e.message "Failed to create user")
  | .failure respData => catchBlock respData

/-! ### Subsonic auth encoder (lines 32-38)

`crypto.randomBytes(16).toString('hex')` and
`crypto.createHash('md5').update(password + salt).digest('hex')`.
The random byte draw is modelled as an explicit input; hex encoding and
MD5 (library primitives not in this repository) are given in full. -/

/-- The lowercase hex digit of a value below 16: `0`-`9` then `a`-`f`. -/
def hexChar (n : Nat) : Char :=
  if n < 10 then Char.ofNat (48 + n) else Char.ofNat (87 + n)

/-- The two hex characters of one byte, high nibble first. -/
def byteHex (b : Nat) : List Char := [hexChar (b / 16), hexChar (b % 16)]

/-- Node's `Buffer.toString('hex')`: lowercase hex, two characters per byte. -/
def bytesToHex (bs : List Nat) : String := String.mk ((bs.map byteHex).flatten)

/-- Value of a lowercase hex digit character (inverse of `hexChar`). -/
def hexVal (c : Char) : Nat :=
  if c.toNat < 97 then c.toNat - 48 else c.toNat - 87

/-- Decode a hex character list back to bytes, two characters per byte. -/
def hexPairsToBytes : List Char → List Nat
  | c1 :: c2 :: rest => (hexVal c1 * 16 + hexVal c2) :: hexPairsToBytes rest
  | _ => []

/-- Bitwise combination of the low `k` bits of two naturals. -/
def bitop : Nat → (Bool → Bool → Bool) → Nat → Nat → Nat
  | 0, _, _, _ => 0
  | k + 1, f, a, b =>
    (if f (a % 2 = 1) (b % 2 = 1) then 1 else 0) + 2 * bitop k f (a / 2) (b / 2)

/-- 32-bit bitwise and. -/
def and32 (a b : Nat) : Nat := bitop 32 (fun x y => x && y) a b

/-- 32-bit bitwise or. -/
def or32 (a b : Nat) : Nat := bitop 32 (fun x y => x || y) a b

/-- 32-bit bitwise xor. -/
def xor32 (a b : Nat) : Nat := bitop 32 (fun x y => xor x y) a b

/-- 32-bit bitwise complement of a value below `2^32`. -/
def not32 (a : Nat) : Nat := 4294967295 - a

/-- 32-bit left rotation by `s` places of a value below `2^32`. -/
def rotl32 (x s : Nat) : Nat := x % 2 ^ (32 - s) * 2 ^ s + x / 2 ^ (32 - s)

/-- Modelled from the spec: the MD5 sine-derived round constants
(`crypto`'s MD5 is not part of this repository). -/
def mdK : Nat → Nat :=
  fun i =>
    [0xd76aa478, 0xe8c7b756, 0x242070db, 0xc1bdceee,
     0xf57c0faf, 0x4787c62a, 0xa8304613, 0xfd469501,
     0x698098d8, 0x8b44f7af, 0xffff5bb1, 0x895cd7be,
     0x6b901122, 0xfd987193, 0xa679438e, 0x49b40821,
     0xf61e2562, 0xc040b340, 0x265e5a51, 0xe9b6c7aa,
     0xd62f105d, 0x02441453, 0xd8a1e681, 0xe7d3fbc8,
     0x21e1cde6, 0xc33707d6, 0xf4d50d87, 0x455a14ed,
     0xa9e3e905, 0xfcefa3f8, 0x676f02d9, 0x8d2a4c8a,
     0xfffa3942, 0x8771f681, 0x6d9d6122, 0xfde5380c,
     0xa4beea44, 0x4bdecfa9, 0xf6bb4b60, 0xbebfbc70,
     0x289b7ec6, 0xeaa127fa, 0xd4ef3085, 0x04881d05,
     0xd9d4d039, 0xe6db99e5, 0x1fa27cf8, 0xc4ac5665,
     0xf4292244, 0x432aff97, 0xab9423a7, 0xfc93a039,
     0x655b59c3, 0x8f0ccc92, 0xffeff47d, 0x85845dd1,
     0x6fa87e4f, 0xfe2ce6e0, 0xa3014314, 0x4e0811a1,
     0xf7537e82, 0xbd3af235, 0x2ad7d2bb, 0xeb86d391].getD i 0

/-- Modelled from the spec: the MD5 per-round left-rotation amounts. -/
def mdS : Nat → Nat :=
  fun i =>
    [7, 12, 17, 22, 7, 12, 17, 22, 7, 12, 17, 22, 7, 12, 17, 22,
     5, 9, 14, 20, 5, 9, 14, 20, 5, 9, 14, 20, 5, 9, 14, 20,
     4, 11, 16, 23, 4, 11, 16, 23, 4, 11, 16, 23, 4, 11, 16, 23,
     6, 10, 15, 21, 6, 10, 15, 21, 6, 10, 15, 21, 6, 10, 15, 21].getD i 0

/-- The 32-bit little-endian word of a block at word index `g`. -/
def wordAt (block : List Nat) (g : Nat) : Nat :=
  block.getD (4 * g) 0 % 256 + 256 * (block.getD (4 * g + 1) 0 % 256) +
    65536 * (block.getD (4 * g + 2) 0 % 256) + 16777216 * (block.getD (4 * g + 3) 0 % 256)

/-- One MD5 operation (operation index `i` in `0..63`). -/
def md5Round (block : List Nat) (i : Nat) : Nat × Nat × Nat × Nat → Nat × Nat × Nat × Nat :=
  fun st =>
    let a := st.1
    let b := st.2.1
    let c := st.2.2.1
    let d := st.2.2.2
    let fg : Nat × Nat :=
      if i < 16 then (or32 (and32 b c) (and32 (not32 b) d), i)
      else if i < 32 then (or32 (and32 d b) (and32 (not32 d) c), (5 * i + 1) % 16)
      else if i < 48 then (xor32 (xor32 b c) d, (3 * i + 5) % 16)
      else (xor32 c (or32 b (not32 d)), 7 * i % 16)
    let tmp := (fg.1 + a + mdK i + wordAt block fg.2) % 4294967296
    (d, (b + rotl32 tmp (mdS i)) % 4294967296, b, c)

/-- Process one 64-byte block, updating the four-word MD5 state. -/
def md5Chunk (st : Nat × Nat × Nat × Nat) (block : List Nat) : Nat × Nat × Nat × Nat :=
  let r := (List.range 64).foldl (fun s i => md5Round block i s) st
  ((st.1 + r.1) % 4294967296, (st.2.1 + r.2.1) % 4294967296,
   (st.2.2.1 + r.2.2.1) % 4294967296, (st.2.2.2 + r.2.2.2) % 4294967296)

/-- Consume the padded message 64 bytes at a time (fuel bounds the number
of blocks; the padded length is always a positive multiple of 64). -/
def md5Loop : Nat → (Nat × Nat × Nat × Nat) → List Nat → Nat × Nat × Nat × Nat
  | 0, st, _ => st
  | _ + 1, st, [] => st
  | fuel + 1, st, b :: bs =>
    md5Loop fuel (md5Chunk st ((b :: bs).take 64)) ((b :: bs).drop 64)

/-- MD5 padding: `0x80`, zeros to 56 mod 64, then the bit length as eight
little-endian bytes. -/
def md5Pad (msg : List Nat) : List Nat :=
  let bitLen := msg.length * 8 % 18446744073709551616
  msg ++ 0x80 :: List.replicate ((119 - msg.length % 64) % 64) 0 ++
    [bitLen % 256, bitLen / 256 % 256, bitLen / 65536 % 256,
     bitLen / 16777216 % 256, bitLen / 4294967296 % 256,
     bitLen / 1099511627776 % 256, bitLen / 281474976710656 % 256,
     bitLen / 72057594037927936 % 256]

/-- The four little-endian bytes of a 32-bit word. -/
def wordBytesLE (w : Nat) : List Nat :=
  [w % 256, w / 256 % 256, w / 65536 % 256, w / 16777216 % 256]

/-- Modelled from the spec: the MD5 digest (16 bytes) of a byte sequence;
the repository calls `crypto.createHash('md5')`, whose implementation is
not part of the repository. -/
def md5 (msg : List Nat) : List Nat :=
  let padded := md5Pad msg
  let st := md5Loop padded.length (0x67452301, 0xefcdab89, 0x98badcfe, 0x10325476) padded
  wordBytesLE st.1 ++ wordBytesLE st.2.1 ++ wordBytesLE st.2.2.1 ++ wordBytesLE st.2.2.2

/-- UTF-8 bytes of one character. -/
def utf8Bytes (c : Char) : List Nat :=
  let n := c.toNat
  if n < 128 then [n]
  else if n < 2048 then [192 + n / 64, 128 + n % 64]
  else if n < 65536 then [224 + n / 4096, 128 + n / 64 % 64, 128 + n % 64]
  else [240 + n / 262144, 128 + n / 4096 % 64, 128 + n / 64 % 64, 128 + n % 64]

/-- UTF-8 byte sequence of a string (Node's default encoding for
`hash.update`). -/
def strBytes (s : String) : List Nat := (s.data.map utf8Bytes).flatten

/-- The `{salt, token}` pair of `generateSubsonicAuth` (lines 32-38). -/
structure SubsonicAuth where
  salt : String
  token : String
  deriving DecidableEq, Repr

/-- Lines 32-38: hex-encode the 16 random bytes drawn by
`crypto.randomBytes(16)` (here the explicit input `randomBytes`), and
hash `password + salt` with MD5, hex-encoded. -/
def generateSubsonicAuth (password : String) (randomBytes : List Nat) : SubsonicAuth :=
  let salt := bytesToHex randomBytes
  let token := bytesToHex (md5 (strBytes (password ++ salt)))
  ⟨salt, token⟩

/-! ### The register handler (lines 41-141) and its collaborators -/

/-- The environment-sourced configuration (lines 17-19). -/
structure Config where
  navidromeUrl : String
  adminUser : String
  deriving DecidableEq, Repr

/-- The query parameters of lines 84-105, field for field. -/
structure CreateUserParams where
  u : String
  t : String
  s : String
  v : String
  c : String
  f : String
  username : JsValue
  password : JsValue
  email : JsValue
  adminRole : Bool
  downloadRole : Bool
  uploadRole : Bool
  playlistRole : Bool
  shareRole : Bool
  commentRole : Bool
  podcastRole : Bool
  streamRole : Bool
  jukeboxRole : Bool
  settingsRole : Bool
  coverArtRole : Bool
  deriving DecidableEq, Repr

/-- Lines 84-105: the params object passed to `axios.get`. -/
def buildParams (cfg : Config) (auth : SubsonicAuth)
    (username password email : JsValue) : CreateUserParams :=
  { u := cfg.adminUser
    t := auth.token
    s := auth.salt
    v := "1.16.1"
    c := "NavidromeRegistration"
    f := "json"
    username := username
    password := password
    email := email
    adminRole := false
    downloadRole := true
    uploadRole := true
    playlistRole := true
    shareRole := true
    commentRole := true
    podcastRole := true
    streamRole := true
    jukeboxRole := false
    settingsRole := false
    coverArtRole := true }

/-- The single outbound HTTP GET a request may issue (lines 82-107). -/
structure OutboundCall where
  url : String
  params : CreateUserParams
  deriving DecidableEq, Repr

/-- The body of `app.post('/api/register')` (lines 41-141), after the rate
limiter: run the validation chain; on its first failure answer with that
rule's 400 response and make no outbound call; otherwise build the
`rest/createUser` call from this request's fresh `auth` and interpret the
outcome of awaiting it. The second component records the outbound call
made, `none` when none is made; at most one call is ever issued and no
failure is retried. -/
def registerHandler (cfg : Config) (auth : SubsonicAuth)
    (username password email : JsValue) (outcome : AxiosOutcome) :
    HttpResp × Option OutboundCall :=
  match validationError username password email with
  | some (st, msg) => (errResp st msg, none)
  | none =>
    (upstreamReply username outcome,
      some ⟨cfg.navidromeUrl ++ "/rest/createUser", buildParams cfg auth username password email⟩)

/-! ### Rate limiter (lines 22-29) -/

/-- `windowMs: 15 * 60 * 1000` (line 23). -/
def windowMs : Nat := 15 * 60 * 1000

/-- `max: 5` (line 24). -/
def maxAttempts : Nat := 5

/-- The limiter's rejection body (lines 25-28). -/
def limiterMessage : RespBody :=
  { success := false, error := some "Too many registration attempts. Please try again later." }

/-- Modelled from the spec: the per-key counter state of the
`express-rate-limit` middleware, whose implementation is not part of this
repository (the spec treats it as a stock fixed-window counter admitting at
most `maxAttempts` requests per `windowMs`). -/
structure LimiterState where
  windowStart : Nat
  count : Nat
  deriving DecidableEq, Repr

/-- Modelled from the spec: one limiter decision at time `now` (ms). A
request after the window expires starts a fresh window; within the window
the first `maxAttempts` requests are admitted and later ones rejected. -/
def limiterStep (st : LimiterState) (now : Nat) : LimiterState × Bool :=
  if st.windowStart + windowMs ≤ now then (⟨now, 1⟩, true)
  else if st.count < maxAttempts then (⟨st.windowStart, st.count + 1⟩, true)
  else (st, false)

/-- One `/api/register` request as it reaches the server: arrival time,
the fresh random draw for this request's auth, the three body fields, and
the outcome awaiting the outbound call would produce. -/
structure RequestIn where
  time : Nat
  auth : SubsonicAuth
  username : JsValue
  password : JsValue
  email : JsValue
  outcome : AxiosOutcome
  deriving DecidableEq, Repr

/-- What one request produced: whether the limiter admitted it (so the
validator ran), the HTTP response, and the outbound call made, if any. -/
structure GatewayOut where
  admitted : Bool
  resp : HttpResp
  call : Option OutboundCall
  deriving DecidableEq, Repr

/-- One request through the route `app.post('/api/register',
registerLimiter, handler)` (line 41): the limiter runs first; a rejected
request is answered with the limiter's uniform payload and never reaches
the validator or the upstream client. -/
def gatewayStep (cfg : Config) (st : LimiterState) (r : RequestIn) :
    LimiterState × GatewayOut :=
  let step := limiterStep st r.time
  if step.2 then
    let h := registerHandler cfg r.auth r.username r.password r.email r.outcome
    (step.1, ⟨true, h.1, h.2⟩)
  else
    (step.1, ⟨false, ⟨429, limiterMessage⟩, none⟩)

/-- Run a sequence of same-key requests through the gateway. -/
def runTrace (cfg : Config) (st : LimiterState) : List RequestIn → List GatewayOut
  | [] => []
  | r :: rs =>
    let s := gatewayStep cfg st r
    s.2 :: runTrace cfg s.1 rs

/-! ### Health endpoint (lines 144-150) -/

/-- The body of the `/api/health` response. -/
structure HealthBody where
  status : String
  message : String
  navidromeUrl : String
  deriving DecidableEq, Repr

/-- `app.get('/api/health')` (lines 144-150): a static-shaped 200 response
built only from configuration; the second component records the outbound
calls made while answering — there are none. -/
def healthHandler (cfg : Config) : (Nat × HealthBody) × Option OutboundCall :=
  ((200, ⟨"ok", "Registration service running", cfg.navidromeUrl⟩), none)

/-! ### Spec-side definitions (section 4.1 of the spec), for the
refinement claim about the validator -/

/-- Spec reading of the username rule: 3 to 20 characters, each an ASCII
letter, digit, underscore or hyphen. -/
def specUsernameOk (s : String) : Prop :=
  3 ≤ s.length ∧ s.length ≤ 20 ∧
    ∀ c ∈ s.data,
      ('a' ≤ c ∧ c ≤ 'z') ∨ ('A' ≤ c ∧ c ≤ 'Z') ∨ ('0' ≤ c ∧ c ≤ '9') ∨ c = '_' ∨ c = '-'

/-- Spec reading of the email rule, the shape `local@domain.tld`: a
nonempty local part, `'@'`, and a domain with an inner `'.'` splitting two
nonempty parts, with no whitespace or `'@'` anywhere in the parts. -/
def specEmailOk (s : String) : Prop :=
  ∃ l d1 d2 : List Char,
    s.data = l ++ '@' :: (d1 ++ '.' :: d2) ∧ l ≠ [] ∧ d1 ≠ [] ∧ d2 ≠ [] ∧
      ∀ c ∈ l ++ d1 ++ d2, emailCharOk c = true

instance (s : String) : Decidable (specUsernameOk s) := by
  unfold specUsernameOk; exact inferInstance

/-- Lowercase hexadecimal digit character. -/
def isLowerHex (c : Char) : Bool :=
  (decide ('0' ≤ c) && decide (c ≤ '9')) || (decide ('a' ≤ c) && decide (c ≤ 'f'))

/-! ### Concrete instantiation data used by the closed statements below -/

/-- A concrete configuration. -/
def cfg0 : Config := ⟨"http://navidrome.local", "admin"⟩

/-- A concrete auth pair (the response-mapping paths never read it). -/
def auth0 : SubsonicAuth := ⟨"00ff", "ab"⟩

/-- A concrete 16-byte random draw. -/
def rbA : List Nat := [0, 1, 2, 3, 4, 5, 6, 7, 8, 9, 10, 11, 12, 13, 14, 15]

/-- A second, different concrete 16-byte random draw. -/
def rbB : List Nat := [255, 1, 2, 3, 4, 5, 6, 7, 8, 9, 10, 11, 12, 13, 14, 15]

/-- The outbound call of a valid registration using the draw `rbA`. -/
def callA : OutboundCall :=
  ⟨cfg0.navidromeUrl ++ "/rest/createUser",
    buildParams cfg0 (generateSubsonicAuth "adminpw" rbA)
      (.str "alice123") (.str "password1") (.str "alice@example.com")⟩

/-- The outbound call of a valid registration using the draw `rbB`. -/
def callB : OutboundCall :=
  ⟨cfg0.navidromeUrl ++ "/rest/createUser",
    buildParams cfg0 (generateSubsonicAuth "adminpw" rbB)
      (.str "bob-user") (.str "password2") (.str "bob@example.com")⟩

/-- A concrete upstream reply with `status: "ok"`. -/
def okData : RespData := ⟨some ⟨"ok", none⟩⟩

/-- A concrete valid registration request arriving at t = 1000 ms. -/
def req0 : RequestIn :=
  ⟨1000, auth0, .str "alice123", .str "password1", .str "alice@example.com", .success okData⟩

/-- Six copies of the same valid request inside one limiter window. -/
def reqs6 : List RequestIn := List.replicate 6 req0

end NavReg

/-! ## Supporting lemmas -/

namespace NavReg

theorem bytesToHex_data (bs : List Nat) : (bytesToHex bs).data = (bs.map byteHex).flatten := rfl

theorem bytesToHex_length (bs : List Nat) : (bytesToHex bs).length = 2 * bs.length := by
  show ((bs.map byteHex).flatten).length = 2 * bs.length
  induction bs with
  | nil => rfl
  | cons b tl ih =>
    have h2 : (byteHex b).length = 2 := rfl
    simp only [List.map_cons, List.flatten_cons, List.length_append, h2, ih, List.length_cons]
    omega

theorem isLowerHex_hexChar (n : Nat) (h : n < 16) : isLowerHex (hexChar n) = true := by
  have hall : ∀ m < 16, isLowerHex (hexChar m) = true := by decide
  exact hall n h

theorem mem_bytesToHex_isLowerHex (bs : List Nat) (hb : ∀ b ∈ bs, b < 256) :
    ∀ c ∈ (bytesToHex bs).data, isLowerHex c = true := by
  rw [bytesToHex_data]
  induction bs with
  | nil => intro c hc; simp at hc
  | cons b tl ih =>
    intro c hc
    simp only [List.map_cons, List.flatten_cons, List.mem_append] at hc
    rcases hc with hc | hc
    · have hb0 : b < 256 := hb b (by simp)
      simp only [byteHex, List.mem_cons, List.not_mem_nil, or_false] at hc
      rcases hc with hc | hc <;> rw [hc] <;> exact isLowerHex_hexChar _ (by omega)
    · exact ih (fun x hx => hb x (List.mem_cons_of_mem _ hx)) c hc

theorem hexVal_hexChar (n : Nat) (h : n < 16) : hexVal (hexChar n) = n := by
  have hall : ∀ m < 16, hexVal (hexChar m) = m := by decide
  exact hall n h

theorem hexPairsToBytes_bytesToHex (bs : List Nat) (hb : ∀ b ∈ bs, b < 256) :
    hexPairsToBytes (bytesToHex bs).data = bs := by
  rw [bytesToHex_data]
  induction bs with
  | nil => rfl
  | cons b tl ih =>
    have hb0 : b < 256 := hb b (by simp)
    show hexPairsToBytes (hexChar (b / 16) :: hexChar (b % 16) :: (tl.map byteHex).flatten) =
      b :: tl
    rw [hexPairsToBytes, hexVal_hexChar _ (by omega), hexVal_hexChar _ (by omega)]
    rw [ih (fun x hx => hb x (List.mem_cons_of_mem _ hx))]
    congr 1
    omega

theorem bytesToHex_inj (bs1 bs2 : List Nat) (h1 : ∀ b ∈ bs1, b < 256)
    (h2 : ∀ b ∈ bs2, b < 256) (heq : bytesToHex bs1 = bytesToHex bs2) : bs1 = bs2 := by
  have hdata : (bytesToHex bs1).data = (bytesToHex bs2).data := by rw [heq]
  calc bs1 = hexPairsToBytes (bytesToHex bs1).data := (hexPairsToBytes_bytesToHex bs1 h1).symm
    _ = hexPairsToBytes (bytesToHex bs2).data := by rw [hdata]
    _ = bs2 := hexPairsToBytes_bytesToHex bs2 h2

theorem md5_length (msg : List Nat) : (md5 msg).length = 16 := by
  simp [md5, wordBytesLE]

theorem md5_mem_lt (msg : List Nat) : ∀ b ∈ md5 msg, b < 256 := by
  intro b hb
  simp only [md5, wordBytesLE, List.mem_append, List.mem_cons, List.not_mem_nil,
    or_false] at hb
  omega

theorem splitFirst_eq_some (a : Char) (cs l r : List Char)
    (h : splitFirst a cs = some (l, r)) : cs = l ++ a :: r ∧ a ∉ l := by
  induction cs generalizing l r with
  | nil => simp [splitFirst] at h
  | cons c cs ih =>
    rw [splitFirst] at h
    by_cases hc : c = a
    · rw [if_pos hc] at h
      injection h with h
      injection h with h1 h2
      subst h1
      subst h2
      simp [hc]
    · rw [if_neg hc] at h
      cases hsp : splitFirst a cs with
      | none => rw [hsp] at h; exact absurd h (by simp)
      | some p =>
        obtain ⟨l', r'⟩ := p
        rw [hsp] at h
        injection h with h
        injection h with h1 h2
        subst h1
        subst h2
        obtain ⟨heq, hni⟩ := ih l' r' hsp
        refine ⟨by rw [heq]; rfl, ?_⟩
        intro hm
        rcases List.mem_cons.mp hm with hm | hm
        · exact hc hm.symm
        · exact hni hm

theorem splitFirst_append (a : Char) (l r : List Char) (hl : a ∉ l) :
    splitFirst a (l ++ a :: r) = some (l, r) := by
  induction l with
  | nil => simp [splitFirst]
  | cons c l ih =>
    have hc : c ≠ a := fun h => hl (by rw [h]; exact List.mem_cons_self a l)
    have hl' : a ∉ l := fun h => hl (List.mem_cons_of_mem _ h)
    show splitFirst a (c :: (l ++ a :: r)) = some (c :: l, r)
    rw [splitFirst, if_neg hc, ih hl']

theorem hasInnerDot_eq_true (ds : List Char) :
    hasInnerDot ds = true ↔ ∃ d1 d2, d1 ≠ [] ∧ d2 ≠ [] ∧ ds = d1 ++ '.' :: d2 := by
  induction ds with
  | nil =>
    simp only [hasInnerDot, Bool.false_eq_true, false_iff]
    rintro ⟨d1, d2, h1, _, h⟩
    exact absurd h.symm (by simp [h1])
  | cons a tl ih =>
    cases tl with
    | nil =>
      simp only [hasInnerDot, Bool.false_eq_true, false_iff]
      rintro ⟨d1, d2, h1, h2, h⟩
      rcases d1 with _ | ⟨x, d1'⟩
      · exact h1 rfl
      · simp at h
    | cons c rest =>
      rw [show hasInnerDot (a :: c :: rest) =
        ((decide (c = '.') && decide (rest ≠ [])) || hasInnerDot (c :: rest)) from rfl]
      constructor
      · intro h
        rcases Bool.or_eq_true_iff.mp h with h | h
        · rcases Bool.and_eq_true_iff.mp h with ⟨h1, h2⟩
          exact ⟨[a], rest, by simp, of_decide_eq_true h2, by
            simp [of_decide_eq_true h1]⟩
        · obtain ⟨d1, d2, h1, h2, heq⟩ := ih.mp h
          exact ⟨a :: d1, d2, by simp, h2, by rw [List.cons_append, ← heq]⟩
      · rintro ⟨d1, d2, h1, h2, heq⟩
        rcases d1 with _ | ⟨x, d1'⟩
        · exact absurd rfl h1
        · rw [List.cons_append] at heq
          injection heq with hax htl
          rcases d1' with _ | ⟨y, d1''⟩
          · simp only [List.nil_append] at htl
            injection htl with hcd hrest
            apply Bool.or_eq_true_iff.mpr
            left
            apply Bool.and_eq_true_iff.mpr
            exact ⟨decide_eq_true hcd, decide_eq_true (by rw [hrest]; exact h2)⟩
          · apply Bool.or_eq_true_iff.mpr
            right
            exact ih.mpr ⟨y :: d1'', d2, by simp, h2, htl⟩

theorem emailRegexTest_iff (s : String) : emailRegexTest s = true ↔ specEmailOk s := by
  unfold emailRegexTest specEmailOk
  cases hsp : splitFirst '@' s.data with
  | none =>
    simp only [Bool.false_eq_true, false_iff]
    rintro ⟨l, d1, d2, heq, _, _, _, hall⟩
    have hni : '@' ∉ l := by
      intro hm
      have := hall '@' (by simp [hm])
      simp [emailCharOk] at this
    rw [heq, splitFirst_append '@' l _ hni] at hsp
    exact absurd hsp (by simp)
  | some p =>
    obtain ⟨l, d⟩ := p
    obtain ⟨heq, hni⟩ := splitFirst_eq_some '@' s.data l d hsp
    simp only [Bool.and_eq_true, decide_eq_true_eq, List.all_eq_true]
    constructor
    · rintro ⟨⟨⟨⟨hl, hlall⟩, _⟩, hdall⟩, hdot⟩
      obtain ⟨d1, d2, h1, h2, hdeq⟩ := (hasInnerDot_eq_true d).mp hdot
      refine ⟨l, d1, d2, by rw [heq, hdeq], hl, h1, h2, ?_⟩
      intro c hc
      rcases List.mem_append.mp hc with hc | hc
      · rcases List.mem_append.mp hc with hc | hc
        · exact hlall c hc
        · exact hdall c (by rw [hdeq]; exact List.mem_append_left _ hc)
      · exact hdall c (by rw [hdeq]; exact List.mem_append_right _ (List.mem_cons_of_mem _ hc))
    · rintro ⟨l', d1, d2, heq', hl', h1, h2, hall⟩
      have hni' : '@' ∉ l' := by
        intro hm
        have := hall '@' (by simp [hm])
        simp [emailCharOk] at this
      rw [heq'] at heq
      have hsp' := splitFirst_append '@' l' (d1 ++ '.' :: d2) hni'
      rw [← heq'] at hsp'
      rw [hsp] at hsp'
      simp only [Option.some.injEq, Prod.mk.injEq] at hsp'
      obtain ⟨hll, hdd⟩ := hsp'
      subst hll
      refine ⟨⟨⟨⟨hl', ?_⟩, ?_⟩, ?_⟩, ?_⟩
      · intro c hc
        exact hall c (by simp [hc])
      · rw [hdd]; simp
      · intro c hc
        rw [hdd] at hc
        rcases List.mem_append.mp hc with hc | hc
        · exact hall c (by simp [hc])
        · rcases List.mem_cons.mp hc with hc | hc
          · rw [hc]; rfl
          · exact hall c (by simp [hc])
      · exact (hasInnerDot_eq_true d).mpr ⟨d1, d2, h1, h2, hdd⟩

theorem regexUsernameTest_iff (s : String) : regexUsernameTest s = true ↔ specUsernameOk s := by
  unfold regexUsernameTest specUsernameOk usernameCharOk
  simp only [Bool.and_eq_true, Bool.or_eq_true, decide_eq_true_eq, List.all_eq_true]
  constructor
  · rintro ⟨⟨h3, h20⟩, hall⟩
    exact ⟨h3, h20, fun c hc => by have := hall c hc; tauto⟩
  · rintro ⟨h3, h20, hall⟩
    exact ⟨⟨h3, h20⟩, fun c hc => by have := hall c hc; tauto⟩

theorem registerHandler_of_some (cfg : Config) (auth : SubsonicAuth)
    (u p e : JsValue) (outcome : AxiosOutcome) (st : Nat) (msg : String)
    (h : validationError u p e = some (st, msg)) :
    registerHandler cfg auth u p e outcome = (errResp st msg, none) := by
  unfold registerHandler
  rw [h]

theorem registerHandler_of_none (cfg : Config) (auth : SubsonicAuth)
    (u p e : JsValue) (outcome : AxiosOutcome)
    (h : validationError u p e = none) :
    registerHandler cfg auth u p e outcome =
      (upstreamReply u outcome,
        some ⟨cfg.navidromeUrl ++ "/rest/createUser", buildParams cfg auth u p e⟩) := by
  unfold registerHandler
  rw [h]

theorem catchBlock_of_embedded (respData : Option RespData) (er : SubsonicError)
    (h : embeddedError respData = some er) :
    catchBlock respData = errResp 400 (jsOrDefault er.message "User creation failed") := by
  rcases respData with _ | ⟨_ | ⟨st, _ | er'⟩⟩
  · simp [embeddedError] at h
  · simp [embeddedError, Option.bind] at h
  · simp [embeddedError, Option.bind] at h
  · simp only [embeddedError, Option.bind] at h
    injection h with h
    subst h
    rfl

theorem catchBlock_of_no_embedded (respData : Option RespData)
    (h : embeddedError respData = none) :
    catchBlock respData = ⟨500, { success := false, error := some "Internal server error" }⟩ := by
  rcases respData with _ | ⟨_ | ⟨st, _ | er'⟩⟩
  · rfl
  · rfl
  · rfl
  · simp [embeddedError, Option.bind] at h

theorem runTrace_cons (cfg : Config) (st : LimiterState) (r : RequestIn) (rs : List RequestIn) :
    runTrace cfg st (r :: rs) =
      (gatewayStep cfg st r).2 :: runTrace cfg (gatewayStep cfg st r).1 rs := rfl

theorem gatewayStep_admit (cfg : Config) (st : LimiterState) (r : RequestIn)
    (hnw : ¬ st.windowStart + windowMs ≤ r.time) (hc : st.count < maxAttempts) :
    gatewayStep cfg st r = (⟨st.windowStart, st.count + 1⟩,
      ⟨true, (registerHandler cfg r.auth r.username r.password r.email r.outcome).1,
        (registerHandler cfg r.auth r.username r.password r.email r.outcome).2⟩) := by
  simp [gatewayStep, limiterStep, hnw, hc]

theorem gatewayStep_reject (cfg : Config) (st : LimiterState) (r : RequestIn)
    (hnw : ¬ st.windowStart + windowMs ≤ r.time) (hc : ¬ st.count < maxAttempts) :
    gatewayStep cfg st r = (st, ⟨false, ⟨429, limiterMessage⟩, none⟩) := by
  simp [gatewayStep, limiterStep, hnw, hc]

theorem runTrace_reject_of_full (cfg : Config) :
    ∀ (reqs : List RequestIn) (st : LimiterState) (i : Nat),
      (∀ r ∈ reqs, r.time < st.windowStart + windowMs) →
      maxAttempts ≤ st.count + i → i < reqs.length →
      (runTrace cfg st reqs)[i]? = some ⟨false, ⟨429, limiterMessage⟩, none⟩ := by
  intro reqs
  induction reqs with
  | nil => intro st i _ _ hlen; simp at hlen
  | cons r rs ih =>
    intro st i hwin hcnt hlen
    have hr : r.time < st.windowStart + windowMs := hwin r (by simp)
    have hnw : ¬ st.windowStart + windowMs ≤ r.time := by omega
    by_cases hc : st.count < maxAttempts
    · cases i with
      | zero => omega
      | succ j =>
        rw [runTrace_cons, gatewayStep_admit cfg st r hnw hc]
        simp only [List.getElem?_cons_succ]
        refine ih ⟨st.windowStart, st.count + 1⟩ j
          (fun x hx => hwin x (List.mem_cons_of_mem _ hx)) ?_ (by simpa using hlen)
        show maxAttempts ≤ st.count + 1 + j
        omega
    · cases i with
      | zero =>
        rw [runTrace_cons, gatewayStep_reject cfg st r hnw hc]
        simp
      | succ j =>
        rw [runTrace_cons, gatewayStep_reject cfg st r hnw hc]
        simp only [List.getElem?_cons_succ]
        exact ih st j (fun x hx => hwin x (List.mem_cons_of_mem _ hx)) (by omega)
          (by simpa using hlen)

theorem runTrace_countP_admitted (cfg : Config) :
    ∀ (reqs : List RequestIn) (st : LimiterState),
      (∀ r ∈ reqs, r.time < st.windowStart + windowMs) →
      (runTrace cfg st reqs).countP (fun o => o.admitted) ≤ maxAttempts - st.count := by
  intro reqs
  induction reqs with
  | nil => intro st _; simp [runTrace]
  | cons r rs ih =>
    intro st hwin
    have hr : r.time < st.windowStart + windowMs := hwin r (by simp)
    have hnw : ¬ st.windowStart + windowMs ≤ r.time := by omega
    have hwin' : ∀ x ∈ rs, x.time < st.windowStart + windowMs :=
      fun x hx => hwin x (List.mem_cons_of_mem _ hx)
    by_cases hc : st.count < maxAttempts
    · rw [runTrace_cons, gatewayStep_admit cfg st r hnw hc, List.countP_cons]
      have hrec := ih ⟨st.windowStart, st.count + 1⟩ hwin'
      simp [maxAttempts] at hrec hc ⊢
      omega
    · rw [runTrace_cons, gatewayStep_reject cfg st r hnw hc, List.countP_cons]
      have hrec := ih st hwin'
      simp [maxAttempts] at hrec hc ⊢
      omega

end NavReg




/-! ## Claim theorems -/

namespace NavReg

/-- C1: for every `POST /api/register` request with string-valued fields,
the validator applies its rules in order with first failure winning —
(1) username, password and email all present and non-empty, (2) username
is 3-20 ASCII letters, digits, underscore or hyphen, (3) password length
at least 8, (4) email of shape `local@domain.tld` — and on the first
failing rule the endpoint answers 400 with that rule's specific message
while the outbound call record stays `none` (no upstream call), whatever
the upstream outcome would have been; when every rule passes, validation
succeeds. -/
theorem register_validator_first_failure_wins (cfg : Config) (auth : SubsonicAuth)
    (outcome : AxiosOutcome) (u p e : String) :
    ((u = "" ∨ p = "" ∨ e = "") →
      registerHandler cfg auth (.str u) (.str p) (.str e) outcome =
        (errResp 400 msgMissing, none)) ∧
    (u ≠ "" → p ≠ "" → e ≠ "" → ¬ specUsernameOk u →
      registerHandler cfg auth (.str u) (.str p) (.str e) outcome =
        (errResp 400 msgUsername, none)) ∧
    (u ≠ "" → p ≠ "" → e ≠ "" → specUsernameOk u → p.length < 8 →
      registerHandler cfg auth (.str u) (.str p) (.str e) outcome =
        (errResp 400 msgPassword, none)) ∧
    (u ≠ "" → p ≠ "" → e ≠ "" → specUsernameOk u → 8 ≤ p.length → ¬ specEmailOk e →
      registerHandler cfg auth (.str u) (.str p) (.str e) outcome =
        (errResp 400 msgEmail, none)) ∧
    (u ≠ "" → p ≠ "" → e ≠ "" → specUsernameOk u → 8 ≤ p.length → specEmailOk e →
      validationError (.str u) (.str p) (.str e) = none) := by
  refine ⟨?_, ?_, ?_, ?_, ?_⟩
  · intro h
    apply registerHandler_of_some
    have hcond : (!truthy (.str u) || !truthy (.str p) || !truthy (.str e)) = true := by
      rcases h with h | h | h <;> simp [truthy, h]
    unfold validationError
    rw [hcond]
    simp
  · intro hu hp he hU
    apply registerHandler_of_some
    have hcond : (!truthy (.str u) || !truthy (.str p) || !truthy (.str e)) = false := by
      simp [truthy, hu, hp, he]
    have hu2 : regexUsernameTest (jsToString (.str u)) = false := by
      show regexUsernameTest u = false
      cases hb : regexUsernameTest u with
      | false => rfl
      | true => exact absurd ((regexUsernameTest_iff u).mp hb) hU
    unfold validationError
    rw [hcond, hu2]
    simp
  · intro hu hp he hU hlt
    apply registerHandler_of_some
    have hcond : (!truthy (.str u) || !truthy (.str p) || !truthy (.str e)) = false := by
      simp [truthy, hu, hp, he]
    have hu2 : regexUsernameTest (jsToString (.str u)) = true :=
      (regexUsernameTest_iff u).mpr hU
    have hp2 : jsLengthLt8 (.str p) = true := by simp [jsLengthLt8, hlt]
    unfold validationError
    rw [hcond, hu2, hp2]
    simp
  · intro hu hp he hU hge hE
    apply registerHandler_of_some
    have hcond : (!truthy (.str u) || !truthy (.str p) || !truthy (.str e)) = false := by
      simp [truthy, hu, hp, he]
    have hu2 : regexUsernameTest (jsToString (.str u)) = true :=
      (regexUsernameTest_iff u).mpr hU
    have hp2 : jsLengthLt8 (.str p) = false := by
      simp only [jsLengthLt8, decide_eq_false_iff_not, not_lt]
      exact hge
    have he2 : emailRegexTest (jsToString (.str e)) = false := by
      show emailRegexTest e = false
      cases hb : emailRegexTest e with
      | false => rfl
      | true => exact absurd ((emailRegexTest_iff e).mp hb) hE
    unfold validationError
    rw [hcond, hu2, hp2, he2]
    simp
  · intro hu hp he hU hge hE
    have hcond : (!truthy (.str u) || !truthy (.str p) || !truthy (.str e)) = false := by
      simp [truthy, hu, hp, he]
    have hu2 : regexUsernameTest (jsToString (.str u)) = true :=
      (regexUsernameTest_iff u).mpr hU
    have hp2 : jsLengthLt8 (.str p) = false := by
      simp only [jsLengthLt8, decide_eq_false_iff_not, not_lt]
      exact hge
    have he2 : emailRegexTest (jsToString (.str e)) = true :=
      (emailRegexTest_iff e).mpr hE
    unfold validationError
    rw [hcond, hu2, hp2, he2]
    simp

/-- Witness for C1, at a concrete request whose username is too short. -/
theorem register_validator_first_failure_wins_witness :
    registerHandler cfg0 auth0 (.str "ab") (.str "password1") (.str "a@b.co")
        (.success okData) = (errResp 400 msgUsername, none) :=
  (register_validator_first_failure_wins cfg0 auth0 (.success okData)
      "ab" "password1" "a@b.co").2.1 (by decide) (by decide) (by decide) (by decide)

/-- C2: for every request passing validation, when the outbound call
succeeds and the upstream body's `subsonic-response.status` is `"ok"`,
the endpoint answers 200 with `success := true` and the submitted
username echoed. -/
theorem register_upstream_ok (cfg : Config) (auth : SubsonicAuth) (u p e : JsValue)
    (data : RespData) (sr : SubsonicResp)
    (hv : validationError u p e = none)
    (hsr : data.subsonicResponse = some sr)
    (hok : sr.status = "ok") :
    (registerHandler cfg auth u p e (.success data)).1 =
      ⟨200, { success := true, message := some "Account created successfully",
              username := some u }⟩ := by
  rw [registerHandler_of_none cfg auth u p e (.success data) hv]
  obtain ⟨osr⟩ := data
  obtain rfl : osr = some sr := hsr
  show upstreamReply u (.success ⟨some sr⟩) = _
  simp [upstreamReply, hok]

/-- Witness for C2 at a concrete valid request and `"ok"` upstream reply. -/
theorem register_upstream_ok_witness :
    (registerHandler cfg0 auth0 (.str "alice123") (.str "password1")
        (.str "alice@example.com") (.success okData)).1 =
      ⟨200, { success := true, message := some "Account created successfully",
              username := some (.str "alice123") }⟩ :=
  register_upstream_ok cfg0 auth0 (.str "alice123") (.str "password1")
    (.str "alice@example.com") okData ⟨"ok", none⟩ (by decide) rfl rfl

/-- C3 fails on the code at this input: the upstream reply
`{"subsonic-response":{"status":"failed"}}` carries no error object, so
line 117 stores `undefined` and line 120 throws a TypeError reading
`.message`; the catch block then answers 500 "Internal server error" —
not 400 with the generic "Failed to create user" message the claim
requires for this case. -/
theorem register_upstream_error_counterexample :
    (registerHandler cfg0 auth0 (.str "alice123") (.str "password1")
        (.str "alice@example.com") (.success ⟨some ⟨"failed", none⟩⟩)).1 =
      ⟨500, { success := false, error := some "Internal server error" }⟩ ∧
    (registerHandler cfg0 auth0 (.str "alice123") (.str "password1")
        (.str "alice@example.com") (.success ⟨some ⟨"failed", none⟩⟩)).1.status ≠ 400 := by
  exact ⟨rfl, by decide⟩

/-- C3 (amended): for every request passing validation, when the outbound
call succeeds and the upstream status is not `"ok"`, the endpoint answers
400 with the upstream error object's message (or the generic "Failed to
create user" when that message is absent or empty) provided the reply
carries an error object; when the reply carries no error object at all,
the handler throws and the catch block answers 500 "Internal server
error". -/
theorem register_upstream_error_amended (cfg : Config) (auth : SubsonicAuth)
    (u p e : JsValue) (data : RespData) (sr : SubsonicResp)
    (hv : validationError u p e = none)
    (hsr : data.subsonicResponse = some sr)
    (hnok : sr.status ≠ "ok") :
    (∀ er, sr.error = some er →
      (registerHandler cfg auth u p e (.success data)).1 =
        errResp 400 (jsOrDefault er.message "Failed to create user")) ∧
    (sr.error = none →
      (registerHandler cfg auth u p e (.success data)).1 =
        ⟨500, { success := false, error := some "Internal server error" }⟩) := by
  rw [registerHandler_of_none cfg auth u p e (.success data) hv]
  obtain ⟨osr⟩ := data
  obtain rfl : osr = some sr := hsr
  constructor
  · intro er her
    show upstreamReply u (.success ⟨some sr⟩) = _
    simp [upstreamReply, hnok, her]
  · intro her
    show upstreamReply u (.success ⟨some sr⟩) = _
    simp [upstreamReply, hnok, her, catchBlock]

/-- Witness for C3 (amended) at the spec's duplicate-username example. -/
theorem register_upstream_error_amended_witness :
    (registerHandler cfg0 auth0 (.str "alice123") (.str "password1")
        (.str "alice@example.com")
        (.success ⟨some ⟨"failed", some ⟨some "Username already exists"⟩⟩⟩)).1 =
      errResp 400 "Username already exists" := by
  have h := (register_upstream_error_amended cfg0 auth0 (.str "alice123")
      (.str "password1") (.str "alice@example.com")
      ⟨some ⟨"failed", some ⟨some "Username already exists"⟩⟩⟩
      ⟨"failed", some ⟨some "Username already exists"⟩⟩
      (by decide) rfl (by decide)).1 ⟨some "Username already exists"⟩ rfl
  exact h

/-- C4: for every request passing validation, when the outbound call
itself fails, the catch block inspects the optional
`error.response.data['subsonic-response'].error` payload: if an embedded
error object is found the endpoint answers 400 with its message (default
"User creation failed"), and otherwise 500 with the constant
"Internal server error" body, exposing no internal detail; a malformed
2xx body (no `subsonic-response` key) likewise lands in the catch block
with no payload and answers 500. The model issues at most one outbound
call per request, so no failure class is retried. -/
theorem register_transport_error (cfg : Config) (auth : SubsonicAuth) (u p e : JsValue)
    (respData : Option RespData)
    (hv : validationError u p e = none) :
    (∀ er, embeddedError respData = some er →
      (registerHandler cfg auth u p e (.failure respData)).1 =
        errResp 400 (jsOrDefault er.message "User creation failed")) ∧
    (embeddedError respData = none →
      (registerHandler cfg auth u p e (.failure respData)).1 =
        ⟨500, { success := false, error := some "Internal server error" }⟩) ∧
    (∀ data : RespData, data.subsonicResponse = none →
      (registerHandler cfg auth u p e (.success data)).1 =
        ⟨500, { success := false, error := some "Internal server error" }⟩) := by
  refine ⟨?_, ?_, ?_⟩
  · intro er her
    rw [registerHandler_of_none cfg auth u p e (.failure respData) hv]
    show catchBlock respData = _
    exact catchBlock_of_embedded respData er her
  · intro hnone
    rw [registerHandler_of_none cfg auth u p e (.failure respData) hv]
    show catchBlock respData = _
    exact catchBlock_of_no_embedded respData hnone
  · intro data hdn
    rw [registerHandler_of_none cfg auth u p e (.success data) hv]
    obtain ⟨osr⟩ := data
    obtain rfl : osr = none := hdn
    rfl

/-- Witness for C4 at a concrete connection-refused failure (no response
payload): 500 with the generic body. -/
theorem register_transport_error_witness :
    (registerHandler cfg0 auth0 (.str "alice123") (.str "password1")
        (.str "alice@example.com") (.failure none)).1 =
      ⟨500, { success := false, error := some "Internal server error" }⟩ :=
  (register_transport_error cfg0 auth0 (.str "alice123") (.str "password1")
      (.str "alice@example.com") none (by decide)).2.1 rfl

end NavReg

namespace NavReg

/-- C5: given the admin password and the 16 random bytes drawn by
`crypto.randomBytes(16)`, the encoder returns a salt that is exactly the
hex encoding of those bytes — 32 lowercase hex characters decoding back
to the same 16 bytes — and a token that is the lowercase hex encoding
(32 hex characters) of `MD5(adminPassword ++ salt)`. -/
theorem generateSubsonicAuth_spec (password : String) (rb : List Nat)
    (hlen : rb.length = 16) (hb : ∀ b ∈ rb, b < 256) :
    (generateSubsonicAuth password rb).salt = bytesToHex rb ∧
    (generateSubsonicAuth password rb).salt.length = 32 ∧
    (∀ c ∈ (generateSubsonicAuth password rb).salt.data, isLowerHex c = true) ∧
    hexPairsToBytes (generateSubsonicAuth password rb).salt.data = rb ∧
    (generateSubsonicAuth password rb).token =
      bytesToHex (md5 (strBytes (password ++ (generateSubsonicAuth password rb).salt))) ∧
    (generateSubsonicAuth password rb).token.length = 32 ∧
    (∀ c ∈ (generateSubsonicAuth password rb).token.data, isLowerHex c = true) := by
  refine ⟨rfl, ?_, ?_, ?_, rfl, ?_, ?_⟩
  · show (bytesToHex rb).length = 32
    rw [bytesToHex_length, hlen]
  · exact mem_bytesToHex_isLowerHex rb hb
  · exact hexPairsToBytes_bytesToHex rb hb
  · show (bytesToHex (md5 (strBytes (password ++ bytesToHex rb)))).length = 32
    rw [bytesToHex_length, md5_length]
  · exact mem_bytesToHex_isLowerHex _ (md5_mem_lt _)

/-- Witness for C5 at a concrete password and 16-byte draw. -/
theorem generateSubsonicAuth_spec_witness :
    rbA.length = 16 ∧ (∀ b ∈ rbA, b < 256) ∧
    (generateSubsonicAuth "adminpw" rbA).salt.length = 32 ∧
    (generateSubsonicAuth "adminpw" rbA).token.length = 32 :=
  ⟨by decide, by decide,
    (generateSubsonicAuth_spec "adminpw" rbA (by decide) (by decide)).2.1,
    (generateSubsonicAuth_spec "adminpw" rbA (by decide) (by decide)).2.2.2.2.2.1⟩

theorem registerHandler_call_eq (cfg : Config) (auth : SubsonicAuth) (u p e : JsValue)
    (outcome : AxiosOutcome) (cv : OutboundCall)
    (h : (registerHandler cfg auth u p e outcome).2 = some cv) :
    cv = ⟨cfg.navidromeUrl ++ "/rest/createUser", buildParams cfg auth u p e⟩ := by
  cases hval : validationError u p e with
  | some v =>
    obtain ⟨st, msg⟩ := v
    rw [registerHandler_of_some cfg auth u p e outcome st msg hval] at h
    exact absurd h (by simp)
  | none =>
    rw [registerHandler_of_none cfg auth u p e outcome hval] at h
    have h' : some (⟨cfg.navidromeUrl ++ "/rest/createUser",
        buildParams cfg auth u p e⟩ : OutboundCall) = some cv := h
    injection h' with h'
    exact h'.symm

/-- C6: every outbound call a request makes is a GET to
`{upstreamBaseUrl}/rest/createUser` whose parameters are exactly: the
admin credentials and this request's salt/token, the fixed `v`, `c`,
`f=json`, the three user-supplied fields passed through unmodified, and
the fixed role set (admin, jukebox, settings denied; download, upload,
playlist, share, comment, podcast, stream, cover-art allowed) —
independent of the request data. -/
theorem outbound_call_params (cfg : Config) (auth : SubsonicAuth) (u p e : JsValue)
    (outcome : AxiosOutcome) (cv : OutboundCall)
    (h : (registerHandler cfg auth u p e outcome).2 = some cv) :
    cv = ⟨cfg.navidromeUrl ++ "/rest/createUser",
      { u := cfg.adminUser, t := auth.token, s := auth.salt, v := "1.16.1",
        c := "NavidromeRegistration", f := "json",
        username := u, password := p, email := e,
        adminRole := false, downloadRole := true, uploadRole := true,
        playlistRole := true, shareRole := true, commentRole := true,
        podcastRole := true, streamRole := true, jukeboxRole := false,
        settingsRole := false, coverArtRole := true }⟩ :=
  registerHandler_call_eq cfg auth u p e outcome cv h

/-- Witness for C6 at a concrete valid request. -/
theorem outbound_call_params_witness :
    callA = ⟨cfg0.navidromeUrl ++ "/rest/createUser",
      { u := cfg0.adminUser, t := (generateSubsonicAuth "adminpw" rbA).token,
        s := (generateSubsonicAuth "adminpw" rbA).salt, v := "1.16.1",
        c := "NavidromeRegistration", f := "json",
        username := .str "alice123", password := .str "password1",
        email := .str "alice@example.com",
        adminRole := false, downloadRole := true, uploadRole := true,
        playlistRole := true, shareRole := true, commentRole := true,
        podcastRole := true, streamRole := true, jukeboxRole := false,
        settingsRole := false, coverArtRole := true }⟩ :=
  outbound_call_params cfg0 (generateSubsonicAuth "adminpw" rbA) (.str "alice123")
    (.str "password1") (.str "alice@example.com") (.success okData) callA rfl

/-- C7: from a fresh limiter state, among any same-key requests all inside
one 15-minute window at most `maxAttempts = 5` are admitted (reach the
validator), and every request from the 6th onward receives the uniform
limiter rejection payload with no outbound call and without reaching the
validator, regardless of payload validity. -/
theorem rate_limiter_at_most_five (cfg : Config) (t0 : Nat) (reqs : List RequestIn)
    (hwin : ∀ r ∈ reqs, r.time < t0 + windowMs) :
    (runTrace cfg ⟨t0, 0⟩ reqs).countP (fun o => o.admitted) ≤ maxAttempts ∧
    ∀ i, maxAttempts ≤ i → i < reqs.length →
      (runTrace cfg ⟨t0, 0⟩ reqs)[i]? = some ⟨false, ⟨429, limiterMessage⟩, none⟩ := by
  constructor
  · have h := runTrace_countP_admitted cfg reqs ⟨t0, 0⟩ hwin
    omega
  · intro i hi hlen
    refine runTrace_reject_of_full cfg reqs ⟨t0, 0⟩ i hwin ?_ hlen
    show maxAttempts ≤ 0 + i
    omega

/-- Witness for C7: six identical valid requests in one window; the 6th
(index 5) is rejected with the limiter payload and no call. -/
theorem rate_limiter_at_most_five_witness :
    (∀ r ∈ reqs6, r.time < 900 + windowMs) ∧
    (runTrace cfg0 ⟨900, 0⟩ reqs6)[5]? = some ⟨false, ⟨429, limiterMessage⟩, none⟩ :=
  ⟨by decide,
    (rate_limiter_at_most_five cfg0 900 reqs6 (by decide)).2 5 (by decide) (by decide)⟩

/-- C8: the salt/token pair is computed fresh from each request's own
random draw, and two registration attempts whose 16-byte draws differ
never share a salt (hence never share a salt/token pair) — hex encoding
is injective on byte sequences. -/
theorem fresh_auth_no_reuse (cfg : Config) (pw : String) (r1 r2 : List Nat)
    (hb1 : ∀ b ∈ r1, b < 256) (hb2 : ∀ b ∈ r2, b < 256) (hne : r1 ≠ r2)
    (u1 p1 e1 u2 p2 e2 : JsValue) (o1 o2 : AxiosOutcome) (cv1 cv2 : OutboundCall)
    (h1 : (registerHandler cfg (generateSubsonicAuth pw r1) u1 p1 e1 o1).2 = some cv1)
    (h2 : (registerHandler cfg (generateSubsonicAuth pw r2) u2 p2 e2 o2).2 = some cv2) :
    cv1.params.s ≠ cv2.params.s ∧
    (cv1.params.s, cv1.params.t) ≠ (cv2.params.s, cv2.params.t) := by
  have he1 := registerHandler_call_eq cfg (generateSubsonicAuth pw r1) u1 p1 e1 o1 cv1 h1
  have he2 := registerHandler_call_eq cfg (generateSubsonicAuth pw r2) u2 p2 e2 o2 cv2 h2
  have hs1 : cv1.params.s = bytesToHex r1 := by rw [he1]; rfl
  have hs2 : cv2.params.s = bytesToHex r2 := by rw [he2]; rfl
  have hsneq : bytesToHex r1 ≠ bytesToHex r2 :=
    fun hcontra => hne (bytesToHex_inj r1 r2 hb1 hb2 hcontra)
  constructor
  · rw [hs1, hs2]
    exact hsneq
  · intro hp
    apply hsneq
    rw [← hs1, ← hs2]
    exact congrArg Prod.fst hp

/-- Witness for C8: two concrete valid registrations with different draws
produce calls with different salts. -/
theorem fresh_auth_no_reuse_witness :
    (∀ b ∈ rbA, b < 256) ∧ (∀ b ∈ rbB, b < 256) ∧ rbA ≠ rbB ∧
    callA.params.s ≠ callB.params.s :=
  ⟨by decide, by decide, by decide,
    (fresh_auth_no_reuse cfg0 "adminpw" rbA rbB (by decide) (by decide) (by decide)
      (.str "alice123") (.str "password1") (.str "alice@example.com")
      (.str "bob-user") (.str "password2") (.str "bob@example.com")
      (.success okData) (.success okData) callA callB rfl rfl).1⟩

/-- C9: every `GET /api/health` request is answered 200 with the static
body `{status := "ok"}`, a message, and the configured upstream URL, and
the handler makes no outbound call (its call record is `none`). -/
theorem health_static (cfg : Config) :
    healthHandler cfg =
      ((200, ⟨"ok", "Registration service running", cfg.navidromeUrl⟩), none) := rfl

/-- C10: a request whose password is the truthy non-string JSON value
`1234567` passes the presence check, is not rejected by the length check
(a number has no `length`, so `undefined < 8` is false), and is forwarded
to the upstream unchanged — though it renders to fewer than 8
characters. -/
theorem nonstring_password_forwarded :
    validationError (.str "newuser1") (.num 1234567) (.str "user@example.com") = none ∧
    (registerHandler cfg0 auth0 (.str "newuser1") (.num 1234567)
        (.str "user@example.com") (.success okData)).2 =
      some ⟨cfg0.navidromeUrl ++ "/rest/createUser",
        buildParams cfg0 auth0 (.str "newuser1") (.num 1234567) (.str "user@example.com")⟩ ∧
    ((registerHandler cfg0 auth0 (.str "newuser1") (.num 1234567)
        (.str "user@example.com") (.success okData)).2.map
          (fun cv => cv.params.password)) = some (.num 1234567) ∧
    (jsToString (.num 1234567)).length < 8 :=
  ⟨rfl, rfl, rfl, by decide⟩

end NavReg
